import Mathlib

/-!
Shallow embedding of the `wctx` daemon (Rust) for specification checking.

The embedding follows the source files:
* `src/types.rs` — enums `WindowContext`, `WindowProp`, `WindowType`,
  `WindowState`, the `WindowDict` record, its `update` method, and the
  `TryFrom<DictMap>` conversion used by `SetWindow`;
* `src/daemon/service.rs` — the `Windows` IPC object with its
  `set_window` / `update_window` methods and change signals;
* `src/daemon/providers/x11.rs` — the X11 tracker: `XWindow`,
  `X11::update_window` (context promotion), `calc_window_display`,
  `get_window_state`, `get_window_match`, `cascade_event_mask`, and the
  two debounced-geometry branches of the event loop;
* `src/daemon/debouncer.rs` — the quiescence debouncer, modelled as a
  function over timestamped push sequences.

Machine integers are modelled as `Nat`/`Int` with explicit 16-bit
reinterpretation and wrapping where the Rust source casts (`as i16`,
`as u32`) or where release-mode arithmetic wraps.
-/

set_option autoImplicit false

namespace Wctx

/-- `WindowContext` from `src/types.rs` (serde rename_all = "lowercase"). -/
inductive WindowContext where
  | Both
  | Active
  | Pointer
  deriving DecidableEq, Repr

/-- `WindowProp` from `src/types.rs`; the nine window-record fields.
Serialized names are lowercase (serde/strum `lowercase`). -/
inductive WindowProp where
  | ID
  | Name
  | Class
  | PID
  | Title
  | Type
  | Role
  | State
  | Display
  deriving DecidableEq, Repr

/-- The lowercase wire name of a `WindowProp` (strum `serialize_all = "lowercase"`). -/
def WindowProp.toStr : WindowProp → String
  | .ID => "id"
  | .Name => "name"
  | .Class => "class"
  | .PID => "pid"
  | .Title => "title"
  | .Type => "type"
  | .Role => "role"
  | .State => "state"
  | .Display => "display"

/-- Deserialization of a key string into a `WindowProp` (serde `lowercase`).
An unknown key fails, which surfaces as an invalid-arguments error. -/
def WindowProp.fromStr (s : String) : Option WindowProp :=
  if s = "id" then some .ID
  else if s = "name" then some .Name
  else if s = "class" then some .Class
  else if s = "pid" then some .PID
  else if s = "title" then some .Title
  else if s = "type" then some .Type
  else if s = "role" then some .Role
  else if s = "state" then some .State
  else if s = "display" then some .Display
  else none

/-- `WindowType` from `src/types.rs`. -/
inductive WindowType where
  | None
  | Normal
  | Combo
  | Desktop
  | Dialog
  | DND
  | Dock
  | DropdownMenu
  | Menu
  | Notification
  | PopupMenu
  | Splash
  | Toolbar
  | Tooltip
  | Utility
  | Override
  deriving DecidableEq, Repr

/-- strum `Display` serialization of `WindowType`
(`serialize_all = "SCREAMING_SNAKE_CASE"`, `None` renamed to `""`). -/
def WindowType.toStr : WindowType → String
  | .None => ""
  | .Normal => "NORMAL"
  | .Combo => "COMBO"
  | .Desktop => "DESKTOP"
  | .Dialog => "DIALOG"
  | .DND => "DND"
  | .Dock => "DOCK"
  | .DropdownMenu => "DROPDOWN_MENU"
  | .Menu => "MENU"
  | .Notification => "NOTIFICATION"
  | .PopupMenu => "POPUP_MENU"
  | .Splash => "SPLASH"
  | .Toolbar => "TOOLBAR"
  | .Tooltip => "TOOLTIP"
  | .Utility => "UTILITY"
  | .Override => "OVERRIDE"

/-- strum `EnumString` parse of `WindowType`: exact match against the
serializations above ("" parses to `None`). -/
def WindowType.fromStr (s : String) : Option WindowType :=
  if s = "" then some .None
  else if s = "NORMAL" then some .Normal
  else if s = "COMBO" then some .Combo
  else if s = "DESKTOP" then some .Desktop
  else if s = "DIALOG" then some .Dialog
  else if s = "DND" then some .DND
  else if s = "DOCK" then some .Dock
  else if s = "DROPDOWN_MENU" then some .DropdownMenu
  else if s = "MENU" then some .Menu
  else if s = "NOTIFICATION" then some .Notification
  else if s = "POPUP_MENU" then some .PopupMenu
  else if s = "SPLASH" then some .Splash
  else if s = "TOOLBAR" then some .Toolbar
  else if s = "TOOLTIP" then some .Tooltip
  else if s = "UTILITY" then some .Utility
  else if s = "OVERRIDE" then some .Override
  else none

/-- `WindowState` from `src/types.rs`. -/
inductive WindowState where
  | None
  | Normal
  | Maximized
  | Fullscreen
  deriving DecidableEq, Repr

/-- strum `Display` serialization of `WindowState` (`None` is `""`). -/
def WindowState.toStr : WindowState → String
  | .None => ""
  | .Normal => "NORMAL"
  | .Maximized => "MAXIMIZED"
  | .Fullscreen => "FULLSCREEN"

/-- strum `EnumString` parse of `WindowState`. -/
def WindowState.fromStr (s : String) : Option WindowState :=
  if s = "" then some .None
  else if s = "NORMAL" then some .Normal
  else if s = "MAXIMIZED" then some .Maximized
  else if s = "FULLSCREEN" then some .Fullscreen
  else none

/-- `zbus::fdo::Error` as used by the service: only `InvalidArgs` occurs. -/
inductive FdoErr where
  | invalidArgs : String → FdoErr
  deriving DecidableEq, Repr

/-- `parse_int_string`'s fallback parser `str::parse::<u32>()`: an optional
leading plus sign, then one or more ASCII digits, value below `2^32`. -/
def parseU32 (s : String) : Option Nat :=
  let cs := s.data
  let ds := match cs with
    | '+' :: rest => rest
    | _ => cs
  if ds = [] then none
  else if ds.all Char.isDigit then
    let n := ds.foldl (fun acc c => acc * 10 + (c.toNat - 48)) 0
    if n < 2 ^ 32 then some n else none
  else none

/-- `parse_int_string` from `src/types.rs`: the empty string parses to 0,
any other string goes through the `u32` parser. -/
def parse_int_string (value : String) : Option Nat :=
  if value = "" then some 0 else parseU32 value

/-- The `WindowDict` record from `src/types.rs` (the window's nine fields).
The Rust field `class` is a Lean keyword, hence the guillemets. -/
structure WindowDict where
  id : String
  name : String
  «class» : String
  pid : Nat
  title : String
  type : WindowType
  role : String
  state : WindowState
  display : String
  deriving DecidableEq, Repr

/-- `WindowDict::default()`: empty strings, `pid = 0`, `type = None`,
`state = None`. -/
def WindowDict.default : WindowDict :=
  { id := "", name := "", «class» := "", pid := 0, title := "",
    type := .None, role := "", state := .None, display := "" }

/-- `WindowDict::update` from `src/types.rs`. The parse of the value happens
before the field assignment, so a failing parse leaves the record unchanged;
the pair returns the (possibly) updated record together with the error. -/
def WindowDict.update (d : WindowDict) (key : WindowProp) (value : String) :
    WindowDict × Option FdoErr :=
  match key with
  | .ID => ({ d with id := value }, none)
  | .Name => ({ d with name := value }, none)
  | .Class => ({ d with «class» := value }, none)
  | .PID =>
    match parse_int_string value with
    | some n => ({ d with pid := n }, none)
    | none => (d, some (.invalidArgs "Expected integer value for pid"))
  | .Title => ({ d with title := value }, none)
  | .Type =>
    match WindowType.fromStr value with
    | some t => ({ d with type := t }, none)
    | none => (d, some (.invalidArgs "Expected valid value for type"))
  | .Role => ({ d with role := value }, none)
  | .State =>
    match WindowState.fromStr value with
    | some t => ({ d with state := t }, none)
    | none => (d, some (.invalidArgs "Expected valid value for state"))
  | .Display => ({ d with display := value }, none)

/-- String projection of one field of a `WindowDict` (the wire value of the
field, as produced by `as_map`). Used to state frame conditions. -/
def WindowDict.getProp (d : WindowDict) : WindowProp → String
  | .ID => d.id
  | .Name => d.name
  | .Class => d.«class»
  | .PID => toString d.pid
  | .Title => d.title
  | .Type => d.type.toStr
  | .Role => d.role
  | .State => d.state.toStr
  | .Display => d.display

/-- Whether `value` passes `WindowDict::update`'s validation for field `key`:
an integer parse for `pid`, an enum parse for `type`/`state`, anything for
the free-string fields. -/
def validValue (key : WindowProp) (value : String) : Bool :=
  match key with
  | .PID => (parse_int_string value).isSome
  | .Type => (WindowType.fromStr value).isSome
  | .State => (WindowState.fromStr value).isSome
  | _ => true

/-- A D-Bus variant value, restricted to the shapes the service inspects:
strings, signed and unsigned 32-bit integers, and anything else. -/
inductive DValue where
  | str : String → DValue
  | i32 : Int → DValue
  | u32 : Nat → DValue
  | other : DValue
  deriving DecidableEq, Repr

/-- `DictMap`: the string-to-variant mapping passed to `SetWindow`. -/
abbrev DictMap : Type := List (String × DValue)

/-- Keyed lookup in a `DictMap` (a `HashMap` in the source; first match). -/
def DictMap.get (m : DictMap) (k : String) : Option DValue :=
  (List.find? (fun p => p.1 = k) m).map (fun p => p.2)

/-- `ValueExt<String>::extract` from `src/types.rs`: a missing key yields the
default (empty) string; a present non-string value is an invalid argument. -/
def DictMap.extractString (m : DictMap) (k : String) : Except FdoErr String :=
  match m.get k with
  | none => .ok ""
  | some (.str s) => .ok s
  | some _ => .error (.invalidArgs ("Expected string value for " ++ k))

/-- `ValueExt<u32>::extract` from `src/types.rs`: a missing key yields 0; an
`i32` value saturates at 0 from below; a `u32` value passes through; anything
else is an invalid argument. -/
def DictMap.extractU32 (m : DictMap) (k : String) : Except FdoErr Nat :=
  match m.get k with
  | none => .ok 0
  | some (.i32 n) => .ok (max n 0).toNat
  | some (.u32 n) => .ok n
  | some _ => .error (.invalidArgs ("Expected integer value for " ++ k))

/-- The enum `extract` generated by `impl_from_str_enum!` for `WindowType`:
extract the string (missing key gives `""`), then parse. -/
def DictMap.extractType (m : DictMap) (k : String) : Except FdoErr WindowType := do
  let s ← m.extractString k
  match WindowType.fromStr s with
  | some t => .ok t
  | none => .error (.invalidArgs ("Expected valid value for " ++ k))

/-- The enum `extract` generated by `impl_from_str_enum!` for `WindowState`. -/
def DictMap.extractState (m : DictMap) (k : String) : Except FdoErr WindowState := do
  let s ← m.extractString k
  match WindowState.fromStr s with
  | some t => .ok t
  | none => .error (.invalidArgs ("Expected valid value for " ++ k))

/-- `TryFrom<DictMap> for WindowDict` from `src/types.rs`: each of the nine
fields is extracted independently; missing keys take defaults. -/
def WindowDict.tryFrom (m : DictMap) : Except FdoErr WindowDict := do
  let id ← m.extractString "id"
  let name ← m.extractString "name"
  let cls ← m.extractString "class"
  let pid ← m.extractU32 "pid"
  let title ← m.extractString "title"
  let ty ← m.extractType "type"
  let role ← m.extractString "role"
  let st ← m.extractState "state"
  let display ← m.extractString "display"
  .ok { id := id, name := name, «class» := cls, pid := pid, title := title,
        type := ty, role := role, state := st, display := display }

/-- The two property-change signals of the `org.wctx.Windows` object. -/
inductive Signal where
  | activeChanged
  | pointerChanged
  deriving DecidableEq, Repr

/-- The `Windows` IPC object state from `src/daemon/service.rs`:
the two cached window records. -/
structure Windows where
  active_window : WindowDict
  pointer_window : WindowDict
  deriving DecidableEq, Repr

/-- `Windows::set_window` from `src/daemon/service.rs`: convert the dict
(errors propagate without mutation), replace the addressed record(s), emit
the matching change signal(s). Returns the new state, the emitted signals,
and the error if any. -/
def Windows.set_window (w : Windows) (context : WindowContext) (m : DictMap) :
    Windows × List Signal × Option FdoErr :=
  match WindowDict.tryFrom m with
  | .error e => (w, [], some e)
  | .ok dict =>
    match context with
    | .Both =>
      ({ active_window := dict, pointer_window := dict },
       [.activeChanged, .pointerChanged], none)
    | .Active =>
      ({ w with active_window := dict }, [.activeChanged], none)
    | .Pointer =>
      ({ w with pointer_window := dict }, [.pointerChanged], none)

/-- `Windows::update_window` from `src/daemon/service.rs`. The wire `key`
string is deserialized into a `WindowProp` (an unknown key is rejected as
invalid arguments before any mutation). In the `Both` branch the active
record is updated first; an error there returns early (keeping whatever the
update left behind), mirroring the `?` operators in the source. Signals are
emitted only after the update(s) succeed. -/
def Windows.update_window (w : Windows) (context : WindowContext)
    (key : String) (value : String) : Windows × List Signal × Option FdoErr :=
  match WindowProp.fromStr key with
  | none => (w, [], some (.invalidArgs ("Invalid key " ++ key)))
  | some k =>
    match context with
    | .Both =>
      let a := w.active_window.update k value
      match a.2 with
      | some e => ({ w with active_window := a.1 }, [], some e)
      | none =>
        let p := w.pointer_window.update k value
        match p.2 with
        | some e => ({ active_window := a.1, pointer_window := p.1 }, [], some e)
        | none => ({ active_window := a.1, pointer_window := p.1 },
                   [.activeChanged, .pointerChanged], none)
    | .Active =>
      let a := w.active_window.update k value
      match a.2 with
      | some e => ({ w with active_window := a.1 }, [], some e)
      | none => ({ w with active_window := a.1 }, [.activeChanged], none)
    | .Pointer =>
      let p := w.pointer_window.update k value
      match p.2 with
      | some e => ({ w with pointer_window := p.1 }, [], some e)
      | none => ({ w with pointer_window := p.1 }, [.pointerChanged], none)

/-! ### X11 tracker (`src/daemon/providers/x11.rs`) -/

/-- Reinterpretation of a `u16` value as `i16` (the Rust `as i16` cast). -/
def u16AsI16 (n : Nat) : Int :=
  if n < 32768 then (n : Int) else (n : Int) - 65536

/-- Wrapping of an integer into the `i16` range, as release-mode Rust
arithmetic does on overflow (`%` on `Int` is the nonnegative Euclidean
remainder). -/
def wrap16 (z : Int) : Int :=
  (z + 32768) % 65536 - 32768

/-- Reinterpretation of an `i16` value as `u32` (the Rust `as u32` cast,
which sign-extends). -/
def i16AsU32 (z : Int) : Nat :=
  (z % 2 ^ 32).toNat

/-- A monitor as stored by `get_displays`: name plus rectangle. The RandR
width/height are `u16` cast `as i16` at store time, so the fields are `i16`
values. -/
structure XDisplay where
  name : String
  x : Int
  y : Int
  w : Int
  h : Int
  deriving DecidableEq, Repr

/-- The loop body of `calc_window_display`'s overlap pass: the accumulator
is `(matched, max_overlap_area)`. `x`, `y`, `w`, `h` are the (already
`i16`-cast) window rectangle. The overlap edges are clipped in `i16`
arithmetic, the area in `u32`; replacement requires a strictly greater
area, so an earlier monitor wins ties. -/
def overlapStep (x y w h : Int) (acc : Option String × Nat) (d : XDisplay) :
    Option String × Nat :=
  let ox1 := max x d.x
  let oy1 := max y d.y
  let ox2 := min (wrap16 (x + w)) (wrap16 (d.x + d.w))
  let oy2 := min (wrap16 (y + h)) (wrap16 (d.y + d.h))
  if ox1 < ox2 ∧ oy1 < oy2 then
    let area := (i16AsU32 (wrap16 (ox2 - ox1)) *
                 i16AsU32 (wrap16 (oy2 - oy1))) % 2 ^ 32
    if area > acc.2 then (some d.name, area) else acc
  else acc

/-- `X11::calc_window_display` from `src/daemon/providers/x11.rs`.
`w`/`h` arrive as `u16` and are cast `as i16` first. All 16-bit arithmetic
wraps (release-mode Rust); `i16` division truncates toward zero
(`Int.tdiv`); the overlap area is computed in `u32`. -/
def calc_window_display (displays : List XDisplay) (x y : Int) (w h : Nat) :
    Option String :=
  let w := u16AsI16 w
  let h := u16AsI16 h
  let cx := wrap16 (x + Int.tdiv w 2)
  let cy := wrap16 (y + Int.tdiv h 2)
  match displays.find? (fun d =>
      decide (d.x ≤ cx ∧ cx < wrap16 (d.x + d.w) ∧
              d.y ≤ cy ∧ cy < wrap16 (d.y + d.h))) with
  | some d => some d.name
  | none => (displays.foldl (overlapStep x y w h) (none, 0)).1

/-- Claim-side center containment: the monitor's rectangle contains the
point, with mathematical integer arithmetic. -/
def centerIn (d : XDisplay) (cx cy : Int) : Prop :=
  d.x ≤ cx ∧ cx < d.x + d.w ∧ d.y ≤ cy ∧ cy < d.y + d.h

instance (d : XDisplay) (cx cy : Int) : Decidable (centerIn d cx cy) := by
  unfold centerIn
  infer_instance

/-- Claim-side rectangular overlap area of the window `(x, y, w, h)` and a
monitor, with mathematical integer arithmetic (0 when they do not
overlap). -/
def overlapArea (x y w h : Int) (d : XDisplay) : Int :=
  max 0 (min (x + w) (d.x + d.w) - max x d.x) *
    max 0 (min (y + h) (d.y + d.h) - max y d.y)

/-- Claim-side choice of the monitor with the largest overlap, earlier
monitor winning ties: `none` when no monitor overlaps the window. -/
def bestOverlap (x y w h : Int) : List XDisplay → Option (String × Int)
  | [] => none
  | d :: rest =>
    let a := overlapArea x y w h d
    match bestOverlap x y w h rest with
    | none => if 0 < a then some (d.name, a) else none
    | some p => if p.2 ≤ a ∧ 0 < a then some (d.name, a) else some p

/-- The display-affinity rule written from the claim's words, for the
refinement comparison with `calc_window_display`: the first monitor
containing the center `(x + w/2, y + h/2)`; else the monitor with the
largest overlap, ties to the earlier monitor; else none (published as the
empty string). -/
def display_affinity_spec (displays : List XDisplay) (x y w h : Int) :
    Option String :=
  let cx := x + w / 2
  let cy := y + h / 2
  match displays.find? (fun d => decide (centerIn d cx cy)) with
  | some d => some d.name
  | none => (bestOverlap x y w h displays).map (fun p => p.1)

/-- A value representable in `i16`. -/
def inI16 (z : Int) : Prop := -32768 ≤ z ∧ z < 32768

/-- A monitor whose rectangle involves no 16-bit overflow: corner
coordinates and far edges in `i16` range, nonnegative extents. -/
def dispOk (d : XDisplay) : Prop :=
  inI16 d.x ∧ inI16 d.y ∧ 0 ≤ d.w ∧ 0 ≤ d.h ∧
    inI16 (d.x + d.w) ∧ inI16 (d.y + d.h)

instance (z : Int) : Decidable (inI16 z) := by
  unfold inI16
  infer_instance

instance (d : XDisplay) : Decidable (dispOk d) := by
  unfold dispOk
  infer_instance

/-- The three `_NET_WM_STATE` atoms the tracker compares against. -/
structure StateAtoms where
  fullscreen : Nat
  maximizedHorz : Nat
  maximizedVert : Nat
  deriving DecidableEq, Repr

/-- `X11::get_window_state` from `src/daemon/providers/x11.rs`, applied to
the list of atoms fetched from `_NET_WM_STATE` (the source collects them
into a `HashSet` and tests membership, which `List.contains` models). -/
def get_window_state (atoms : StateAtoms) (states : List Nat) : WindowState :=
  if states.contains atoms.fullscreen then .Fullscreen
  else if states.contains atoms.maximizedHorz &&
          states.contains atoms.maximizedVert then .Maximized
  else .Normal

/-- The per-byte transform `get_window_match` applies in place to the
`WM_CLASS` bytes: NUL is left alone, a space becomes a dash, an uppercase
ASCII letter is lowercased, everything else is unchanged. -/
def normByte (b : Nat) : Nat :=
  if b = 0 then 0
  else if b = 32 then 45
  else if 65 ≤ b ∧ b ≤ 90 then b + 32
  else b

/-- `X11::get_window_match` from `src/daemon/providers/x11.rs`, at the byte
level. `value` is the fetched `WM_CLASS` property (an empty fetch yields no
match upstream, modelled by the emptiness check). The source records the
index of the first NUL while transforming in place; since `normByte` fixes
NUL and never produces it, the first-NUL index of the transformed bytes is
that of the original, so the transform can be modelled as a `map` before
slicing. The name is the segment before the first NUL; the class is the
segment after it with the final byte (the trailing NUL) dropped.
(`str::from_utf8` is byte-preserving and only filters invalid UTF-8 to
`None`; on a property whose only NUL is the final byte the source's slice
`[(sep+1)..(len-1)]` panics, where this model yields the empty class.) -/
def get_window_match (winId : Nat) (value : List Nat) :
    Option (Nat × List Nat × List Nat) :=
  if value = [] then none
  else
    match value.findIdx? (fun b => b == 0) with
    | none => none
    | some sep =>
      let tv := value.map normByte
      some (winId, tv.take sep, (tv.drop (sep + 1)).dropLast)

/-- The tracker's local window record `XWindow` from
`src/daemon/providers/x11.rs`. -/
structure XWindow where
  id : Nat
  top_id : Nat
  name : String
  «class» : String
  pid : Nat
  title : String
  type : WindowType
  role : String
  state : WindowState
  display : String
  deriving DecidableEq, Repr

/-- `XWindow::default()`: ids 0, empty strings, `None` enums. -/
def XWindow.default : XWindow :=
  { id := 0, top_id := 0, name := "", «class» := "", pid := 0, title := "",
    type := .None, role := "", state := .None, display := "" }

/-- `XUpdateProp` from `src/daemon/providers/x11.rs`: the three fields the
tracker updates in place. -/
inductive XUpdateProp where
  | Title : String → XUpdateProp
  | State : WindowState → XUpdateProp
  | Display : String → XUpdateProp
  deriving DecidableEq, Repr

/-- `XWindow::update`: store the new value and return the wire key and the
new value rendered as a string (`WindowState` via its strum serialization,
matching `state.as_ref()`). -/
def XWindow.update (w : XWindow) : XUpdateProp → XWindow × WindowProp × String
  | .Title v => ({ w with title := v }, .Title, v)
  | .State v => ({ w with state := v }, .State, v.toStr)
  | .Display v => ({ w with display := v }, .Display, v)

/-- The tracker state relevant to the update paths: the monitor list and the
two local window records. -/
structure X11 where
  displays : List XDisplay
  active_window : XWindow
  pointer_window : XWindow
  deriving DecidableEq, Repr

/-- `X11::update_window` from `src/daemon/providers/x11.rs`: promote the
context from `Active` to `Both` when the two records hold the same id
(`Pointer` is never promoted), update the local record(s), and return the
context, key and value passed to the service proxy. -/
def X11.update_window (x : X11) (context : WindowContext) (prop : XUpdateProp) :
    X11 × WindowContext × WindowProp × String :=
  let context :=
    if context = .Active ∧ x.active_window.id = x.pointer_window.id then .Both
    else context
  match context with
  | .Active =>
    let r := x.active_window.update prop
    ({ x with active_window := r.1 }, .Active, r.2.1, r.2.2)
  | .Pointer =>
    let r := x.pointer_window.update prop
    ({ x with pointer_window := r.1 }, .Pointer, r.2.1, r.2.2)
  | .Both =>
    let a := x.active_window.update prop
    let p := x.pointer_window.update prop
    ({ x with active_window := a.1, pointer_window := p.1 }, .Both, p.2.1, p.2.2)

/-- A `ConfigureNotify` event as consumed by the debounced-geometry
branches: window id, root-relative position (`i16`), and size (`u16`). -/
structure ConfigureEvent where
  window : Nat
  x : Int
  y : Int
  width : Nat
  height : Nat
  deriving DecidableEq, Repr

/-- A tracker-to-service publication: the `(context, key, value)` triple of
one `UpdateWindow` proxy call. -/
abbrev Publication := WindowContext × WindowProp × String

/-- The active-debouncer output branch of the `serve` event loop
(`src/daemon/providers/x11.rs`): drop the event if its window is no longer
the Active record's `top_id`; otherwise recompute the display and publish an
update only when it changed. -/
def handleActiveDebounced (x : X11) (e : ConfigureEvent) :
    X11 × List Publication :=
  if e.window ≠ x.active_window.top_id then (x, [])
  else
    let new_display :=
      (calc_window_display x.displays e.x e.y e.width e.height).getD ""
    if new_display ≠ x.active_window.display then
      let r := x.update_window .Active (.Display new_display)
      (r.1, [(r.2.1, r.2.2.1, r.2.2.2)])
    else (x, [])

/-- The pointer-debouncer output branch of the `serve` event loop, symmetric
to the active one but issuing context `Pointer`. -/
def handlePointerDebounced (x : X11) (e : ConfigureEvent) :
    X11 × List Publication :=
  if e.window ≠ x.pointer_window.top_id then (x, [])
  else
    let new_display :=
      (calc_window_display x.displays e.x e.y e.width e.height).getD ""
    if new_display ≠ x.pointer_window.display then
      let r := x.update_window .Pointer (.Display new_display)
      (r.1, [(r.2.1, r.2.2.1, r.2.2.2)])
    else (x, [])

/-- A concrete tracker state in which the Active and Pointer records hold
the same window id (5) but different `top_id`s (reachable when the pointer
record was rebuilt through a different ancestor of the same client window):
one monitor "B", both records currently on display "A". -/
def xCoincident : X11 :=
  { displays := [⟨"B", 0, 0, 100, 100⟩],
    active_window := { XWindow.default with id := 5, top_id := 10, display := "A" },
    pointer_window := { XWindow.default with id := 5, top_id := 20, display := "A" } }

/-- A debounced `ConfigureNotify` for the pointer record's `top_id` whose
geometry centers on monitor "B". -/
def eCoincident : ConfigureEvent :=
  { window := 20, x := 0, y := 0, width := 10, height := 10 }

/-! ### Event-mask cascade (`X11::cascade_event_mask` and the startup loop)

The X server interactions are abstracted as a tree of outcomes: each node
carries its window id, the outcome of `change_window_attributes` on it
(`attrErr`), whether it has a non-empty `WM_CLASS` (`valid`, the
`is_valid_window` test), the outcome of `query_tree(...).reply()` on it
(`childErr`), and its children. -/

inductive XNode where
  | mk : Nat → Option String → Bool → Option String → List XNode → XNode
  deriving Repr

mutual

/-- `X11::cascade_event_mask` from `src/daemon/providers/x11.rs`: id 0 stops;
a failing mask change propagates its error (`?`); a node with a class is a
leaf returning `true`; a failing tree query propagates its error (`?`);
otherwise recurse into the children, stopping at the first that returns
`true`. -/
def cascade_event_mask : XNode → Except String Bool
  | .mk id attrErr valid childErr children =>
    if id = 0 then .ok false
    else
      match attrErr with
      | some e => .error e
      | none =>
        if valid then .ok true
        else
          match childErr with
          | some e => .error e
          | none => cascadeList children

/-- The child loop body of `cascade_event_mask`: cascade each
child in order; an error propagates; a `true` short-circuits. -/
def cascadeList : List XNode → Except String Bool
  | [] => .ok false
  | c :: rest =>
    match cascade_event_mask c with
    | .error e => .error e
    | .ok true => .ok true
    | .ok false => cascadeList rest

end

/-- The startup cascade loop in `serve` (`src/daemon/providers/x11.rs`,
lines 29–31): cascade every existing top-level child in order, propagating
any error with `?` (which aborts `serve`). -/
def startupCascade : List XNode → Except String Unit
  | [] => .ok ()
  | c :: rest =>
    match cascade_event_mask c with
    | .error e => .error e
    | .ok _ => startupCascade rest

/-! ### Debouncer (`src/daemon/debouncer.rs`)

The background task is modelled as a function from the timestamped sequence
of pushed values to the timestamped sequence of emitted values. On the
first push at time `t` the timer is armed for `t + d`; a push strictly
before the deadline overwrites the pending value and re-arms the timer to
its own time plus `d`; a push at or after the deadline lets the timer fire
first (emitting the pending value at the deadline) and starts a new cycle.
The end of the list is unbounded quiescence, after which the pending value
is emitted at its deadline. -/

/-- One debounce cycle: `last` is the pending `(time, value)` pair, whose
deadline is `last.1 + d`. -/
def debounceAux {α : Type} (d : Nat) (last : Nat × α) :
    List (Nat × α) → List (Nat × α)
  | [] => [(last.1 + d, last.2)]
  | (t, v) :: rest =>
    if t < last.1 + d then debounceAux d (t, v) rest
    else (last.1 + d, last.2) :: debounceAux d (t, v) rest

/-- The debouncer: emitted `(time, value)` pairs for a pushed sequence. -/
def debounce {α : Type} (d : Nat) : List (Nat × α) → List (Nat × α)
  | [] => []
  | p :: rest => debounceAux d p rest

/-- Adjacent pushes are separated by less than `d` (each push arrives
strictly before the previous push's deadline). -/
def gapsLt {α : Type} (d : Nat) (l : List (Nat × α)) : Prop :=
  List.Chain' (fun a b => b.1 < a.1 + d) l

/-- Validity of the `id`/`name`/`class`/`title`/`role`/`display` entry of a
dict: absent, or present as a string. -/
def entryOkStr (m : DictMap) (k : String) : Bool :=
  match m.get k with
  | none => true
  | some (.str _) => true
  | some _ => false

/-- Validity of the `pid` entry of a dict: absent, or a signed or unsigned
32-bit integer. -/
def entryOkInt (m : DictMap) (k : String) : Bool :=
  match m.get k with
  | none => true
  | some (.i32 _) => true
  | some (.u32 _) => true
  | some _ => false

/-- Validity of the `type` entry of a dict: absent, or a string parsing as a
`WindowType` (absence parses the default empty string, giving `None`). -/
def entryOkType (m : DictMap) (k : String) : Bool :=
  match m.get k with
  | none => true
  | some (.str s) => (WindowType.fromStr s).isSome
  | some _ => false

/-- Validity of the `state` entry of a dict. -/
def entryOkState (m : DictMap) (k : String) : Bool :=
  match m.get k with
  | none => true
  | some (.str s) => (WindowState.fromStr s).isSome
  | some _ => false

/-! ### Shared helper lemmas -/

/-- The strum serialization of a `WindowType` parses back to it. -/
theorem windowType_fromStr_toStr (v : WindowType) :
    WindowType.fromStr v.toStr = some v := by
  cases v <;> rfl

/-- The strum serialization of a `WindowState` parses back to it. -/
theorem windowState_fromStr_toStr (v : WindowState) :
    WindowState.fromStr v.toStr = some v := by
  cases v <;> rfl

/-- The lowercase wire name of a `WindowProp` deserializes back to it. -/
theorem windowProp_fromStr_toStr (p : WindowProp) :
    WindowProp.fromStr p.toStr = some p := by
  cases p <;> rfl

/-- `normByte` never produces an uppercase ASCII letter or a space. -/
theorem normByte_not_upper_space (a : Nat) :
    ¬(65 ≤ normByte a ∧ normByte a ≤ 90) ∧ normByte a ≠ 32 := by
  unfold normByte
  split_ifs <;> omega

/-! ### Claim theorems -/

/-- **C9.** Serialization round-trip for the enums: parsing the serialized
form of every `WindowType` and every `WindowState` variant yields the
variant back; the `None` variant of each serializes to the empty string and
the empty string parses back to `None`. -/
theorem enum_roundtrip :
    (∀ v : WindowType, WindowType.fromStr v.toStr = some v) ∧
    (∀ v : WindowState, WindowState.fromStr v.toStr = some v) ∧
    WindowType.toStr .None = "" ∧ WindowState.toStr .None = "" ∧
    WindowType.fromStr "" = some WindowType.None ∧
    WindowState.fromStr "" = some WindowState.None :=
  ⟨windowType_fromStr_toStr, windowState_fromStr_toStr, rfl, rfl, rfl, rfl⟩

/-- **C4.** Window state computation: for every set of fetched
`_NET_WM_STATE` atoms, the computed state is `Fullscreen` iff the
fullscreen atom is a member; `Maximized` iff fullscreen is absent and both
maximized atoms are members; `Normal` otherwise. -/
theorem window_state_rule (a : StateAtoms) (s : List Nat) :
    (get_window_state a s = .Fullscreen ↔ a.fullscreen ∈ s) ∧
    (get_window_state a s = .Maximized ↔
      a.fullscreen ∉ s ∧ a.maximizedHorz ∈ s ∧ a.maximizedVert ∈ s) ∧
    (get_window_state a s = .Normal ↔
      a.fullscreen ∉ s ∧ ¬(a.maximizedHorz ∈ s ∧ a.maximizedVert ∈ s)) := by
  by_cases h1 : a.fullscreen ∈ s <;>
    by_cases h2 : a.maximizedHorz ∈ s <;>
      by_cases h3 : a.maximizedVert ∈ s <;>
        simp [get_window_state, List.elem_iff, List.contains, h1, h2, h3]

/-- **C10.** Stale debounced geometry events are discarded: when a debounced
`ConfigureNotify` event's window no longer equals the corresponding
context's current `top_id`, the tracker publishes nothing and leaves its
state unchanged. -/
theorem stale_debounced_dropped (x : X11) (e : ConfigureEvent) :
    (e.window ≠ x.active_window.top_id → handleActiveDebounced x e = (x, [])) ∧
    (e.window ≠ x.pointer_window.top_id → handlePointerDebounced x e = (x, [])) := by
  constructor <;> intro h <;>
    simp [handleActiveDebounced, handlePointerDebounced, h]

/-- Witness for `stale_debounced_dropped` at a concrete state and event. -/
theorem stale_debounced_dropped_witness :
    handleActiveDebounced ⟨[], XWindow.default, XWindow.default⟩ ⟨1, 0, 0, 0, 0⟩ =
      (⟨[], XWindow.default, XWindow.default⟩, []) ∧
    handlePointerDebounced ⟨[], XWindow.default, XWindow.default⟩ ⟨1, 0, 0, 0, 0⟩ =
      (⟨[], XWindow.default, XWindow.default⟩, []) :=
  ⟨(stale_debounced_dropped _ _).1 (by decide),
   (stale_debounced_dropped _ _).2 (by decide)⟩

/-- **C8.** Name/class normalization: whenever `get_window_match` publishes
a `(name, class)` pair from a `WM_CLASS` byte string, neither contains an
uppercase ASCII letter (65–90) or a space (32). -/
theorem wm_class_normalized (winId idOut : Nat) (value nm cls : List Nat)
    (h : get_window_match winId value = some (idOut, nm, cls)) :
    (∀ b ∈ nm, ¬(65 ≤ b ∧ b ≤ 90) ∧ b ≠ 32) ∧
    (∀ b ∈ cls, ¬(65 ≤ b ∧ b ≤ 90) ∧ b ≠ 32) := by
  have hnorm : ∀ b ∈ value.map normByte, ¬(65 ≤ b ∧ b ≤ 90) ∧ b ≠ 32 := by
    intro b hb
    rcases List.mem_map.mp hb with ⟨a, _, rfl⟩
    exact normByte_not_upper_space a
  by_cases hv : value = []
  · simp [get_window_match, hv] at h
  · rw [get_window_match, if_neg hv] at h
    rcases hfi : value.findIdx? (fun b => b == 0) with _ | sep
    · rw [hfi] at h
      simp at h
    · rw [hfi] at h
      simp only [Option.some.injEq, Prod.mk.injEq] at h
      obtain ⟨-, hnm, hcls⟩ := h
      constructor
      · intro b hb
        exact hnorm b (List.take_subset _ _ (hnm ▸ hb))
      · intro b hb
        exact hnorm b
          (List.drop_subset _ _ (List.dropLast_subset _ (hcls ▸ hb)))

/-- Witness for `wm_class_normalized`: the `WM_CLASS` bytes
`"A\x00B \x00"` normalize to name `"a"` and class `"b-"`. -/
theorem wm_class_normalized_witness :
    (∀ b ∈ [97], ¬(65 ≤ b ∧ b ≤ 90) ∧ b ≠ 32) ∧
    (∀ b ∈ [98, 45], ¬(65 ≤ b ∧ b ≤ 90) ∧ b ≠ 32) :=
  wm_class_normalized 5 5 [65, 0, 66, 32, 0] [97] [98, 45] (by decide)

/-- During one debounce cycle whose pending pair is `p`, if every adjacent
gap in `p :: l` is below `d`, the cycle emits exactly the last pair's value
at the last push time plus `d`. -/
theorem debounceAux_getLast {α : Type} (d : Nat) :
    ∀ (l : List (Nat × α)) (p : Nat × α) (t : Nat) (v : α),
      (p :: l).getLast? = some (t, v) →
      List.Chain' (fun a b => b.1 < a.1 + d) (p :: l) →
      debounceAux d p l = [(t + d, v)] := by
  intro l
  induction l with
  | nil =>
    intro p t v hl _
    simp only [List.getLast?_singleton, Option.some.injEq] at hl
    subst hl
    rfl
  | cons q rest ih =>
    intro p t v hl hc
    obtain ⟨qt, qv⟩ := q
    rw [List.chain'_cons] at hc
    rw [List.getLast?_cons_cons] at hl
    show debounceAux d p ((qt, qv) :: rest) = [(t + d, v)]
    rw [debounceAux, if_pos hc.1]
    exact ih (qt, qv) t v hl hc.2

/-- **C6.** Debouncer last-value semantics: for every burst of `k ≥ 1`
pushes (the list is nonempty since its last element exists) in which
consecutive pushes are separated by less than the delay `d`, followed by
quiescence (the end of the push sequence), the debouncer emits exactly the
last pushed value, once, at the last push time plus `d`, and nothing else
is pending (the singleton output). -/
theorem debouncer_last_value {α : Type} (d : Nat) (l : List (Nat × α))
    (t : Nat) (v : α) (hlast : l.getLast? = some (t, v)) (hgaps : gapsLt d l) :
    debounce d l = [(t + d, v)] := by
  cases l with
  | nil => simp at hlast
  | cons p rest => exact debounceAux_getLast d rest p t v hlast hgaps

/-- Witness for `debouncer_last_value`: three pushes at 0, 5, 12 with delay
15 yield exactly the last value, at time 27. -/
theorem debouncer_last_value_witness :
    debounce 15 [(0, "a"), (5, "b"), (12, "c")] = [(27, "c")] :=
  debouncer_last_value 15 [(0, "a"), (5, "b"), (12, "c")] 12 "c" (by rfl)
    (by simp [gapsLt, List.chain'_cons])

theorem isOk_extractString (m : DictMap) (k : String) :
    (m.extractString k).isOk = entryOkStr m k := by
  cases hg : m.get k with
  | none => simp [DictMap.extractString, entryOkStr, hg, Except.isOk, Except.toBool]
  | some v =>
    cases v <;> simp [DictMap.extractString, entryOkStr, hg, Except.isOk, Except.toBool]

theorem isOk_extractU32 (m : DictMap) (k : String) :
    (m.extractU32 k).isOk = entryOkInt m k := by
  cases hg : m.get k with
  | none => simp [DictMap.extractU32, entryOkInt, hg, Except.isOk, Except.toBool]
  | some v =>
    cases v <;> simp [DictMap.extractU32, entryOkInt, hg, Except.isOk, Except.toBool]

theorem isOk_extractType (m : DictMap) (k : String) :
    (m.extractType k).isOk = entryOkType m k := by
  cases hg : m.get k with
  | none =>
    simp [DictMap.extractType, DictMap.extractString, entryOkType, hg,
      Except.isOk, Except.toBool, Bind.bind, Except.bind, WindowType.fromStr]
  | some v =>
    cases v with
    | str s =>
      cases hf : WindowType.fromStr s <;>
        simp [DictMap.extractType, DictMap.extractString, entryOkType, hg,
          hf, Except.isOk, Except.toBool, Bind.bind, Except.bind]
    | i32 n =>
      simp [DictMap.extractType, DictMap.extractString, entryOkType, hg,
        Except.isOk, Except.toBool, Bind.bind, Except.bind]
    | u32 n =>
      simp [DictMap.extractType, DictMap.extractString, entryOkType, hg,
        Except.isOk, Except.toBool, Bind.bind, Except.bind]
    | other =>
      simp [DictMap.extractType, DictMap.extractString, entryOkType, hg,
        Except.isOk, Except.toBool, Bind.bind, Except.bind]

theorem isOk_extractState (m : DictMap) (k : String) :
    (m.extractState k).isOk = entryOkState m k := by
  cases hg : m.get k with
  | none =>
    simp [DictMap.extractState, DictMap.extractString, entryOkState, hg,
      Except.isOk, Except.toBool, Bind.bind, Except.bind, WindowState.fromStr]
  | some v =>
    cases v with
    | str s =>
      cases hf : WindowState.fromStr s <;>
        simp [DictMap.extractState, DictMap.extractString, entryOkState, hg,
          hf, Except.isOk, Except.toBool, Bind.bind, Except.bind]
    | i32 n =>
      simp [DictMap.extractState, DictMap.extractString, entryOkState, hg,
        Except.isOk, Except.toBool, Bind.bind, Except.bind]
    | u32 n =>
      simp [DictMap.extractState, DictMap.extractString, entryOkState, hg,
        Except.isOk, Except.toBool, Bind.bind, Except.bind]
    | other =>
      simp [DictMap.extractState, DictMap.extractString, entryOkState, hg,
        Except.isOk, Except.toBool, Bind.bind, Except.bind]

/-- Counterexample for **C7** as stated: a `SetWindow` call with the empty
dict — every one of the nine keys missing — is accepted (no error, signal
emitted), not rejected; the record is replaced by the all-default record. -/
theorem set_window_missing_keys_cex :
    Windows.set_window ⟨WindowDict.default, WindowDict.default⟩ .Active [] =
      (⟨WindowDict.default, WindowDict.default⟩, [Signal.activeChanged], none) := by
  rfl

/-- **C7 (amended).** `SetWindow` does not require the nine keys: the dict
conversion succeeds iff every entry that is present is well-typed (string
values for the string fields, a 32-bit integer for `pid`, a parsable enum
string for `type`/`state`); a missing key never causes rejection (each
validity predicate is `true` on an absent key, and the field defaults). -/
theorem set_window_acceptance (m : DictMap) :
    (WindowDict.tryFrom m).isOk =
      (entryOkStr m "id" && entryOkStr m "name" && entryOkStr m "class" &&
       entryOkInt m "pid" && entryOkStr m "title" && entryOkType m "type" &&
       entryOkStr m "role" && entryOkState m "state" &&
       entryOkStr m "display") := by
  have h1 := isOk_extractString m "id"
  have h2 := isOk_extractString m "name"
  have h3 := isOk_extractString m "class"
  have h4 := isOk_extractU32 m "pid"
  have h5 := isOk_extractString m "title"
  have h6 := isOk_extractType m "type"
  have h7 := isOk_extractString m "role"
  have h8 := isOk_extractState m "state"
  have h9 := isOk_extractString m "display"
  unfold WindowDict.tryFrom
  cases e1 : m.extractString "id" <;>
    cases e2 : m.extractString "name" <;>
      cases e3 : m.extractString "class" <;>
        cases e4 : m.extractU32 "pid" <;>
          cases e5 : m.extractString "title" <;>
            cases e6 : m.extractType "type" <;>
              cases e7 : m.extractString "role" <;>
                cases e8 : m.extractState "state" <;>
                  cases e9 : m.extractString "display" <;>
                    simp_all [Bind.bind, Except.bind, Except.isOk, Except.toBool]

/-- A `WindowDict::update` with an invalid value fails and leaves the
record unchanged (the value parse happens before the assignment). -/
theorem WindowDict.update_invalid (d : WindowDict) (p : WindowProp)
    (v : String) (h : validValue p v = false) :
    (d.update p v).1 = d ∧ (d.update p v).2.isSome = true := by
  cases p with
  | PID =>
    cases hp : parse_int_string v with
    | some n => rw [validValue, hp] at h; simp at h
    | none => simp [WindowDict.update, hp]
  | «Type» =>
    cases hp : WindowType.fromStr v with
    | some t => rw [validValue, hp] at h; simp at h
    | none => simp [WindowDict.update, hp]
  | State =>
    cases hp : WindowState.fromStr v with
    | some t => rw [validValue, hp] at h; simp at h
    | none => simp [WindowDict.update, hp]
  | ID => simp [validValue] at h
  | Name => simp [validValue] at h
  | Class => simp [validValue] at h
  | Title => simp [validValue] at h
  | Role => simp [validValue] at h
  | Display => simp [validValue] at h

/-- A `WindowDict::update` with a valid value succeeds and changes at most
the addressed field: every other field projection is unchanged. -/
theorem WindowDict.update_valid (d : WindowDict) (p : WindowProp)
    (v : String) (h : validValue p v = true) :
    (d.update p v).2 = none ∧
    ∀ q, q ≠ p → (d.update p v).1.getProp q = d.getProp q := by
  cases p with
  | PID =>
    cases hp : parse_int_string v with
    | none => rw [validValue, hp] at h; simp at h
    | some n =>
      refine ⟨by simp [WindowDict.update, hp], fun q hq => ?_⟩
      cases q <;> simp [WindowDict.update, WindowDict.getProp, hp] <;>
        exact absurd rfl hq
  | «Type» =>
    cases hp : WindowType.fromStr v with
    | none => rw [validValue, hp] at h; simp at h
    | some t =>
      refine ⟨by simp [WindowDict.update, hp], fun q hq => ?_⟩
      cases q <;> simp [WindowDict.update, WindowDict.getProp, hp] <;>
        exact absurd rfl hq
  | State =>
    cases hp : WindowState.fromStr v with
    | none => rw [validValue, hp] at h; simp at h
    | some t =>
      refine ⟨by simp [WindowDict.update, hp], fun q hq => ?_⟩
      cases q <;> simp [WindowDict.update, WindowDict.getProp, hp] <;>
        exact absurd rfl hq
  | ID =>
    refine ⟨rfl, fun q hq => ?_⟩
    cases q <;> simp [WindowDict.update, WindowDict.getProp] <;>
      exact absurd rfl hq
  | Name =>
    refine ⟨rfl, fun q hq => ?_⟩
    cases q <;> simp [WindowDict.update, WindowDict.getProp] <;>
      exact absurd rfl hq
  | Class =>
    refine ⟨rfl, fun q hq => ?_⟩
    cases q <;> simp [WindowDict.update, WindowDict.getProp] <;>
      exact absurd rfl hq
  | Title =>
    refine ⟨rfl, fun q hq => ?_⟩
    cases q <;> simp [WindowDict.update, WindowDict.getProp] <;>
      exact absurd rfl hq
  | Role =>
    refine ⟨rfl, fun q hq => ?_⟩
    cases q <;> simp [WindowDict.update, WindowDict.getProp] <;>
      exact absurd rfl hq
  | Display =>
    refine ⟨rfl, fun q hq => ?_⟩
    cases q <;> simp [WindowDict.update, WindowDict.getProp] <;>
      exact absurd rfl hq

/-- **C2.** `UpdateWindow` error atomicity: for every context, key string
and value string — if the key is not one of the nine window properties, or
the value fails validation for that key, the call returns an
invalid-arguments error and both cached records are exactly as before;
otherwise it succeeds and the addressed record(s) change only in that one
field (every other field projection is unchanged, and the non-addressed
record is untouched). -/
theorem update_window_atomicity (w : Windows) (ctx : WindowContext)
    (key value : String) :
    (WindowProp.fromStr key = none →
      (w.update_window ctx key value).2.2.isSome = true ∧
      (w.update_window ctx key value).1 = w) ∧
    (∀ p, WindowProp.fromStr key = some p → validValue p value = false →
      (w.update_window ctx key value).2.2.isSome = true ∧
      (w.update_window ctx key value).1 = w) ∧
    (∀ p, WindowProp.fromStr key = some p → validValue p value = true →
      (w.update_window ctx key value).2.2 = none ∧
      (ctx = .Active →
        (∀ q, q ≠ p →
          (w.update_window ctx key value).1.active_window.getProp q =
            w.active_window.getProp q) ∧
        (w.update_window ctx key value).1.pointer_window = w.pointer_window) ∧
      (ctx = .Pointer →
        (∀ q, q ≠ p →
          (w.update_window ctx key value).1.pointer_window.getProp q =
            w.pointer_window.getProp q) ∧
        (w.update_window ctx key value).1.active_window = w.active_window) ∧
      (ctx = .Both →
        (∀ q, q ≠ p →
          (w.update_window ctx key value).1.active_window.getProp q =
            w.active_window.getProp q) ∧
        (∀ q, q ≠ p →
          (w.update_window ctx key value).1.pointer_window.getProp q =
            w.pointer_window.getProp q))) := by
  refine ⟨?_, ?_, ?_⟩
  · intro hk
    simp [Windows.update_window, hk, Option.isSome]
  · intro p hk hv
    have ha := WindowDict.update_invalid w.active_window p value hv
    have hb := WindowDict.update_invalid w.pointer_window p value hv
    cases hea : (w.active_window.update p value).2 with
    | none => rw [hea] at ha; simp at ha
    | some e =>
      cases heb : (w.pointer_window.update p value).2 with
      | none => rw [heb] at hb; simp at hb
      | some e2 =>
        cases ctx <;>
          simp [Windows.update_window, hk, hea, heb, ha.1, hb.1,
            Option.isSome]
  · intro p hk hv
    have ha := WindowDict.update_valid w.active_window p value hv
    have hb := WindowDict.update_valid w.pointer_window p value hv
    cases ctx with
    | Both =>
      simp [Windows.update_window, hk, ha.1, hb.1]
      exact ⟨ha.2, hb.2⟩
    | Active =>
      simp [Windows.update_window, hk, ha.1, hb.1]
      exact ha.2
    | Pointer =>
      simp [Windows.update_window, hk, ha.1, hb.1]
      exact hb.2

/-- Witness for `update_window_atomicity` at concrete inputs: an invalid
`pid` value under context `Both` errors and leaves the default state
untouched. -/
theorem update_window_atomicity_witness :
    (Windows.update_window ⟨WindowDict.default, WindowDict.default⟩ .Both
      "pid" "abc").2.2.isSome = true ∧
    (Windows.update_window ⟨WindowDict.default, WindowDict.default⟩ .Both
      "pid" "abc").1 = ⟨WindowDict.default, WindowDict.default⟩ :=
  (update_window_atomicity ⟨WindowDict.default, WindowDict.default⟩ .Both
    "pid" "abc").2.1 .PID (by decide) (by decide)

/-- Counterexample for **C1** as stated: in the state `xCoincident` the two
records hold the same window id, yet the pointer-debouncer path publishes a
display update with context `Pointer`, not `Both` (`X11::update_window`
promotes only `Active`-context updates); applying that publication to the
service mutates only the pointer record and emits only the pointer signal. -/
theorem pointer_update_not_promoted_cex :
    xCoincident.active_window.id = xCoincident.pointer_window.id ∧
    (handlePointerDebounced xCoincident eCoincident).2 =
      [(WindowContext.Pointer, WindowProp.Display, "B")] ∧
    WindowContext.Pointer ≠ WindowContext.Both ∧
    (Windows.update_window ⟨WindowDict.default, WindowDict.default⟩ .Pointer
      "display" "B").2.1 = [Signal.pointerChanged] ∧
    (Windows.update_window ⟨WindowDict.default, WindowDict.default⟩ .Pointer
      "display" "B").1.active_window = WindowDict.default := by
  refine ⟨rfl, by decide, by decide, rfl, rfl⟩

/-- **C1 (amended).** When the Active and Pointer records hold the same
window id, every field update issued with context `Active` (the title,
state and active-geometry debouncer paths) is promoted to `Both`: the single
resulting `UpdateWindow` invocation succeeds, mutates both cached service
records (each then carries the published value in the published field), and
emits both change signals. (Updates issued with context `Pointer` are not
promoted; see the counterexample.) -/
theorem active_update_promoted_to_both (x : X11) (w : Windows)
    (prop : XUpdateProp)
    (hid : x.active_window.id = x.pointer_window.id) :
    (x.update_window .Active prop).2.1 = .Both ∧
    (w.update_window .Both ((x.update_window .Active prop).2.2.1.toStr)
        (x.update_window .Active prop).2.2.2).2.2 = none ∧
    (w.update_window .Both ((x.update_window .Active prop).2.2.1.toStr)
        (x.update_window .Active prop).2.2.2).2.1 =
      [.activeChanged, .pointerChanged] ∧
    (w.update_window .Both ((x.update_window .Active prop).2.2.1.toStr)
        (x.update_window .Active prop).2.2.2).1.active_window.getProp
      (x.update_window .Active prop).2.2.1 =
      (x.update_window .Active prop).2.2.2 ∧
    (w.update_window .Both ((x.update_window .Active prop).2.2.1.toStr)
        (x.update_window .Active prop).2.2.2).1.pointer_window.getProp
      (x.update_window .Active prop).2.2.1 =
      (x.update_window .Active prop).2.2.2 := by
  cases prop with
  | Title v =>
    refine ⟨by simp [X11.update_window, hid], ?_⟩
    simp [X11.update_window, hid, XWindow.update, Windows.update_window,
      WindowProp.fromStr, WindowProp.toStr, WindowDict.update,
      WindowDict.getProp]
  | State s =>
    refine ⟨by simp [X11.update_window, hid], ?_⟩
    simp [X11.update_window, hid, XWindow.update, Windows.update_window,
      WindowProp.fromStr, WindowProp.toStr, WindowDict.update,
      WindowDict.getProp, windowState_fromStr_toStr]
  | Display v =>
    refine ⟨by simp [X11.update_window, hid], ?_⟩
    simp [X11.update_window, hid, XWindow.update, Windows.update_window,
      WindowProp.fromStr, WindowProp.toStr, WindowDict.update,
      WindowDict.getProp]

/-- Witness for `active_update_promoted_to_both` at a concrete coincident
state and a title update. -/
theorem active_update_promoted_to_both_witness :
    (xCoincident.update_window .Active (.Title "t")).2.1 = .Both ∧
    (Windows.update_window ⟨WindowDict.default, WindowDict.default⟩ .Both
        ((xCoincident.update_window .Active (.Title "t")).2.2.1.toStr)
        (xCoincident.update_window .Active (.Title "t")).2.2.2).2.2 = none ∧
    (Windows.update_window ⟨WindowDict.default, WindowDict.default⟩ .Both
        ((xCoincident.update_window .Active (.Title "t")).2.2.1.toStr)
        (xCoincident.update_window .Active (.Title "t")).2.2.2).2.1 =
      [.activeChanged, .pointerChanged] ∧
    (Windows.update_window ⟨WindowDict.default, WindowDict.default⟩ .Both
        ((xCoincident.update_window .Active (.Title "t")).2.2.1.toStr)
        (xCoincident.update_window .Active (.Title "t")).2.2.2).1.active_window.getProp
      (xCoincident.update_window .Active (.Title "t")).2.2.1 =
      (xCoincident.update_window .Active (.Title "t")).2.2.2 ∧
    (Windows.update_window ⟨WindowDict.default, WindowDict.default⟩ .Both
        ((xCoincident.update_window .Active (.Title "t")).2.2.1.toStr)
        (xCoincident.update_window .Active (.Title "t")).2.2.2).1.pointer_window.getProp
      (xCoincident.update_window .Active (.Title "t")).2.2.1 =
      (xCoincident.update_window .Active (.Title "t")).2.2.2 :=
  active_update_promoted_to_both xCoincident
    ⟨WindowDict.default, WindowDict.default⟩ (.Title "t") (by decide)

/-- Counterexample for **C3** as stated: a startup cascade over two
top-level children where the first node's tree query fails (the window
disappeared) aborts with the error — the second node, whose own cascade
would succeed, is never reached, so a single failing node does abort the
cascade and tracker startup. -/
theorem cascade_error_aborts_cex :
    startupCascade [XNode.mk 7 none false (some "BadWindow") [],
                    XNode.mk 8 none true none []] =
      .error "BadWindow" ∧
    cascade_event_mask (XNode.mk 8 none true none []) = .ok true :=
  ⟨rfl, rfl⟩

/-- **C3 (amended).** Errors during event-mask cascading are propagated, not
swallowed: if every top-level child before some node cascades cleanly and
that node's cascade fails (mask install or tree query), the whole startup
cascade returns that error, and the nodes after it are never cascaded. -/
theorem cascade_error_propagates (pre : List XNode) (c : XNode)
    (rest : List XNode) (e : String)
    (hpre : startupCascade pre = .ok ())
    (hc : cascade_event_mask c = .error e) :
    startupCascade (pre ++ c :: rest) = .error e := by
  induction pre with
  | nil => simp [startupCascade, hc]
  | cons a as ih =>
    cases ha : cascade_event_mask a with
    | error e2 => simp [startupCascade, ha] at hpre
    | ok b =>
      simp only [startupCascade, ha] at hpre
      show startupCascade (a :: (as ++ c :: rest)) = .error e
      simp only [startupCascade, ha]
      exact ih hpre

/-- Witness for `cascade_error_propagates`: a clean node, then a node whose
mask install fails, then a node that is never reached. -/
theorem cascade_error_propagates_witness :
    startupCascade ([XNode.mk 3 none true none []] ++
      XNode.mk 9 (some "gone") false none [] :: [XNode.mk 4 none true none []]) =
      .error "gone" :=
  cascade_error_propagates [XNode.mk 3 none true none []]
    (XNode.mk 9 (some "gone") false none []) [XNode.mk 4 none true none []]
    "gone" rfl rfl

/-! ### Display-affinity lemmas -/

theorem wrap16_eq {z : Int} (h : inI16 z) : wrap16 z = z := by
  obtain ⟨h1, h2⟩ := h
  unfold wrap16
  rw [Int.emod_eq_of_lt (by omega) (by omega)]
  omega

theorem u16AsI16_eq {n : Nat} (h : n < 32768) : u16AsI16 n = (n : Int) := by
  simp [u16AsI16, h]

theorem i16AsU32_eq {z : Int} (h1 : 0 ≤ z) (h2 : z < 2 ^ 32) :
    i16AsU32 z = z.toNat := by
  unfold i16AsU32
  rw [Int.emod_eq_of_lt h1 h2]

theorem overlapArea_nonneg (x y w h : Int) (d : XDisplay) :
    0 ≤ overlapArea x y w h d :=
  mul_nonneg (le_max_left 0 _) (le_max_left 0 _)

/-- Under in-range bounds, one code step of the overlap pass replaces the
accumulator exactly when the claim-side overlap area is positive and
strictly exceeds the running maximum. -/
theorem overlapStep_eq (x y : Int) (w h : Nat) (hw : w < 32768)
    (hh : h < 32768) (hxw : inI16 (x + w)) (hyh : inI16 (y + h))
    (d : XDisplay) (hd : dispOk d) (acc : Option String × Nat) :
    overlapStep x y w h acc d =
      (if 0 < overlapArea x y w h d ∧
          acc.2 < (overlapArea x y w h d).toNat
       then (some d.name, (overlapArea x y w h d).toNat) else acc) := by
  obtain ⟨⟨hdx1, hdx2⟩, ⟨hdy1, hdy2⟩, hdw, hdh,
    ⟨hdxw1, hdxw2⟩, ⟨hdyh1, hdyh2⟩⟩ := hd
  obtain ⟨hxw1, hxw2⟩ := hxw
  obtain ⟨hyh1, hyh2⟩ := hyh
  simp only [overlapStep]
  rw [wrap16_eq ⟨hxw1, hxw2⟩, wrap16_eq ⟨hyh1, hyh2⟩,
    wrap16_eq ⟨hdxw1, hdxw2⟩, wrap16_eq ⟨hdyh1, hdyh2⟩]
  by_cases hpos : max x d.x < min (x + (w : Int)) (d.x + d.w) ∧
      max y d.y < min (y + (h : Int)) (d.y + d.h)
  · rw [if_pos hpos]
    obtain ⟨hpx, hpy⟩ := hpos
    set dx := min (x + (w : Int)) (d.x + d.w) - max x d.x with hdxdef
    set dy := min (y + (h : Int)) (d.y + d.h) - max y d.y with hdydef
    have hdxpos : 0 < dx := by omega
    have hdxle : dx ≤ 32767 := by omega
    have hdypos : 0 < dy := by omega
    have hdyle : dy ≤ 32767 := by omega
    rw [wrap16_eq ⟨by omega, by omega⟩, wrap16_eq ⟨by omega, by omega⟩,
      i16AsU32_eq (by omega) (by omega), i16AsU32_eq (by omega) (by omega)]
    have harea : overlapArea x y w h d = dx * dy := by
      rw [overlapArea, ← hdxdef, ← hdydef,
        max_eq_right (le_of_lt hdxpos), max_eq_right (le_of_lt hdypos)]
    have hprod : dx.toNat * dy.toNat < 2 ^ 32 := by
      calc dx.toNat * dy.toNat ≤ 32767 * 32767 :=
            Nat.mul_le_mul (by omega) (by omega)
        _ < 2 ^ 32 := by norm_num
    rw [Nat.mod_eq_of_lt hprod, harea]
    have htn : (dx * dy).toNat = dx.toNat * dy.toNat := by
      obtain ⟨na, hna⟩ : ∃ n : Nat, dx = (n : Int) :=
        ⟨dx.toNat, (Int.toNat_of_nonneg (by omega)).symm⟩
      obtain ⟨nb, hnb⟩ : ∃ n : Nat, dy = (n : Int) :=
        ⟨dy.toNat, (Int.toNat_of_nonneg (by omega)).symm⟩
      rw [hna, hnb, ← Int.natCast_mul, Int.toNat_natCast, Int.toNat_natCast,
        Int.toNat_natCast]
    rw [htn]
    have hab : 0 < dx * dy := mul_pos hdxpos hdypos
    by_cases himp : acc.2 < dx.toNat * dy.toNat
    · rw [if_pos himp, if_pos ⟨hab, himp⟩]
    · rw [if_neg himp, if_neg (fun hcon => himp hcon.2)]
  · rw [if_neg hpos]
    have hzero : overlapArea x y w h d = 0 := by
      rcases not_and_or.mp hpos with hno | hno
      · have h0 : max 0 (min (x + (w : Int)) (d.x + d.w) - max x d.x) = 0 :=
          max_eq_left (by omega)
        rw [overlapArea, h0, zero_mul]
      · have h0 : max 0 (min (y + (h : Int)) (d.y + d.h) - max y d.y) = 0 :=
          max_eq_left (by omega)
        rw [overlapArea, h0, mul_zero]
    rw [hzero, if_neg (fun hcon => lt_irrefl 0 hcon.1)]

/-- A chosen best overlap is positive. -/
theorem bestOverlap_pos (x y w h : Int) :
    ∀ (l : List XDisplay) (p : String × Int),
      bestOverlap x y w h l = some p → 0 < p.2 := by
  intro l
  induction l with
  | nil =>
    intro p hp
    exact absurd hp (by simp [bestOverlap])
  | cons d rest ih =>
    intro p hp
    rcases hb : bestOverlap x y w h rest with _ | q
    · rw [show bestOverlap x y w h (d :: rest) =
          (if 0 < overlapArea x y w h d
           then some (d.name, overlapArea x y w h d) else none)
        from by simp only [bestOverlap, hb]] at hp
      by_cases h0 : 0 < overlapArea x y w h d
      · rw [if_pos h0] at hp
        obtain rfl : (d.name, overlapArea x y w h d) = p := by simpa using hp
        exact h0
      · rw [if_neg h0] at hp
        exact absurd hp (by simp)
    · rw [show bestOverlap x y w h (d :: rest) =
          (if q.2 ≤ overlapArea x y w h d ∧ 0 < overlapArea x y w h d
           then some (d.name, overlapArea x y w h d) else some q)
        from by simp only [bestOverlap, hb]] at hp
      by_cases h0 : q.2 ≤ overlapArea x y w h d ∧ 0 < overlapArea x y w h d
      · rw [if_pos h0] at hp
        obtain rfl : (d.name, overlapArea x y w h d) = p := by simpa using hp
        exact h0.2
      · rw [if_neg h0] at hp
        obtain rfl : q = p := by simpa using hp
        exact ih q hb

/-- The left fold of the overlap pass computes the claim-side best overlap:
it replaces the accumulator iff some monitor overlaps with area exceeding
the running maximum, and the monitor chosen is the earliest one of largest
area. -/
theorem foldl_overlapStep_eq (x y : Int) (w h : Nat) (hw : w < 32768)
    (hh : h < 32768) (hxw : inI16 (x + w)) (hyh : inI16 (y + h)) :
    ∀ (l : List XDisplay), (∀ d ∈ l, dispOk d) →
      ∀ (acc : Option String × Nat),
        l.foldl (overlapStep x y w h) acc =
          (bestOverlap x y w h l).elim acc
            (fun p => if acc.2 < p.2.toNat
                      then (some p.1, p.2.toNat) else acc) := by
  intro l
  induction l with
  | nil =>
    intro _ acc
    rfl
  | cons d rest ih =>
    intro hdl acc
    have hd := hdl d (List.mem_cons_self d rest)
    have hrest := fun d2 hd2 => hdl d2 (List.mem_cons_of_mem _ hd2)
    have ha0 : 0 ≤ overlapArea x y w h d := overlapArea_nonneg x y w h d
    rcases hb : bestOverlap x y w h rest with _ | q
    · have hcons : bestOverlap x y w h (d :: rest) =
          (if 0 < overlapArea x y w h d
           then some (d.name, overlapArea x y w h d) else none) := by
        simp only [bestOverlap, hb]
      rw [List.foldl_cons, overlapStep_eq x y w h hw hh hxw hyh d hd acc,
        ih hrest _, hb, hcons]
      by_cases h1 : 0 < overlapArea x y w h d
      · by_cases h2 : acc.2 < (overlapArea x y w h d).toNat
        · simp [h1, h2]
          try split_ifs <;> first | rfl | omega
        · simp [h1, h2]
          try split_ifs <;> first | rfl | omega
      · simp [h1]
        try split_ifs <;> first | rfl | omega
    · have hcons : bestOverlap x y w h (d :: rest) =
          (if q.2 ≤ overlapArea x y w h d ∧ 0 < overlapArea x y w h d
           then some (d.name, overlapArea x y w h d) else some q) := by
        simp only [bestOverlap, hb]
      have hq := bestOverlap_pos x y w h rest q hb
      rw [List.foldl_cons, overlapStep_eq x y w h hw hh hxw hyh d hd acc,
        ih hrest _, hb, hcons]
      by_cases h1 : 0 < overlapArea x y w h d
      · by_cases h2 : q.2 ≤ overlapArea x y w h d
        · by_cases h3 : acc.2 < (overlapArea x y w h d).toNat
          · have hno : ¬((overlapArea x y w h d).toNat < q.2.toNat) := by
              omega
            simp [h1, h2, h3, hno]
            try split_ifs <;> first | rfl | omega
          · have hno : ¬(acc.2 < q.2.toNat) := by omega
            simp [h1, h2, h3, hno]
            try split_ifs <;> first | rfl | omega
        · by_cases h3 : acc.2 < (overlapArea x y w h d).toNat
          · have hy1 : (overlapArea x y w h d).toNat < q.2.toNat := by omega
            have hy2 : acc.2 < q.2.toNat := by omega
            simp [h1, h2, h3, hy1, hy2]
            try split_ifs <;> first | rfl | omega
          · simp [h1, h2, h3]
            try split_ifs <;> first | rfl | omega
      · simp [h1]
        try split_ifs <;> first | rfl | omega

/-- For a monitor in range, the code's center test (with wrapping) agrees
with the claim-side `centerIn`. -/
theorem center_pred_eq (d : XDisplay) (hd : dispOk d) (cx cy : Int) :
    (decide (d.x ≤ cx ∧ cx < wrap16 (d.x + d.w) ∧
             d.y ≤ cy ∧ cy < wrap16 (d.y + d.h))) =
      decide (centerIn d cx cy) := by
  obtain ⟨_, _, _, _, hdxw, hdyh⟩ := hd
  rw [wrap16_eq hdxw, wrap16_eq hdyh]
  rw [decide_eq_decide]
  unfold centerIn
  exact Iff.rfl

/-- `find?` only depends on the predicate's values on the list members. -/
theorem find?_congr {α : Type} (p q : α → Bool) :
    ∀ (l : List α), (∀ a ∈ l, p a = q a) → l.find? p = l.find? q := by
  intro l
  induction l with
  | nil =>
    intro _
    rfl
  | cons a as ih =>
    intro h
    have ha := h a (List.mem_cons_self a as)
    cases hqa : q a with
    | true => simp [List.find?_cons, ha, hqa]
    | false =>
      simp only [List.find?_cons, ha, hqa]
      exact ih (fun b hb => h b (List.mem_cons_of_mem _ hb))

/-- Counterexample for **C5** as stated: the code casts `w`, `h` from `u16`
to `i16` before computing the center, so for `w = h = 65535` the computed
center is `(x, y)` rather than the claim's `(x + 32767, y + 32767)`. With
monitors `m1` at the origin and `m2` near `(32700, 32700)`, the code
publishes `m1` while the claim's rule picks `m2`. -/
theorem display_affinity_wrap_cex :
    calc_window_display
      [⟨"m1", 0, 0, 100, 100⟩, ⟨"m2", 32700, 32700, 100, 100⟩]
      0 0 65535 65535 = some "m1" ∧
    display_affinity_spec
      [⟨"m1", 0, 0, 100, 100⟩, ⟨"m2", 32700, 32700, 100, 100⟩]
      0 0 65535 65535 = some "m2" ∧
    some "m1" ≠ some "m2" := by
  refine ⟨by decide, by decide, by decide⟩

/-- **C5 (amended).** Display-affinity rule, restricted to rectangles and
monitors whose 16-bit arithmetic cannot overflow (`w, h ≤ 32767`, window
and monitor corners and far edges in `i16` range): the computed display is
that of the first monitor containing the center `(x + w/2, y + h/2)`; if
the center lies on no monitor, that of the monitor with the largest
rectangular overlap with `(x, y, w, h)`, ties broken in favor of the
earlier monitor; and `none` (published as the empty string) if no monitor
overlaps the window. Without the bounds the `u16`-to-`i16` reinterpretation
of `w`, `h` breaks the rule (see the counterexample). -/
theorem display_affinity_in_range (displays : List XDisplay) (x y : Int)
    (w h : Nat) (hw : w < 32768) (hh : h < 32768)
    (hx : inI16 x) (hy : inI16 y) (hxw : inI16 (x + w)) (hyh : inI16 (y + h))
    (hds : ∀ d ∈ displays, dispOk d) :
    calc_window_display displays x y w h =
      display_affinity_spec displays x y w h := by
  have hw2 : (w / 2 : Nat) ≤ w := Nat.div_le_self w 2
  have hh2 : (h / 2 : Nat) ≤ h := Nat.div_le_self h 2
  obtain ⟨hx1, hx2⟩ := hx
  obtain ⟨hy1, hy2⟩ := hy
  obtain ⟨hxw1, hxw2⟩ := hxw
  obtain ⟨hyh1, hyh2⟩ := hyh
  simp only [calc_window_display, display_affinity_spec, u16AsI16_eq hw,
    u16AsI16_eq hh]
  rw [show wrap16 (x + Int.tdiv (w : Int) 2) = x + (w : Int) / 2 by
        rw [show Int.tdiv (w : Int) 2 = ((w / 2 : Nat) : Int) from rfl,
          wrap16_eq ⟨by omega, by omega⟩,
          show ((w / 2 : Nat) : Int) = (w : Int) / 2 from rfl],
      show wrap16 (y + Int.tdiv (h : Int) 2) = y + (h : Int) / 2 by
        rw [show Int.tdiv (h : Int) 2 = ((h / 2 : Nat) : Int) from rfl,
          wrap16_eq ⟨by omega, by omega⟩,
          show ((h / 2 : Nat) : Int) = (h : Int) / 2 from rfl]]
  rw [find?_congr _ _ displays
    (fun d hd => center_pred_eq d (hds d hd) (x + (w : Int) / 2)
      (y + (h : Int) / 2))]
  cases hf : displays.find?
      (fun d => decide (centerIn d (x + (w : Int) / 2) (y + (h : Int) / 2))) with
  | some d => rfl
  | none =>
    rw [foldl_overlapStep_eq x y w h hw hh ⟨hxw1, hxw2⟩ ⟨hyh1, hyh2⟩
      displays hds (none, 0)]
    cases hb : bestOverlap x y w h displays with
    | none => rfl
    | some p =>
      have hq := bestOverlap_pos x y w h displays p hb
      simp only [Option.elim_some]
      rw [if_pos (by omega : 0 < p.2.toNat)]
      rfl

/-- Witness for `display_affinity_in_range` at a concrete in-range input:
two side-by-side monitors, a window centered on the right one. -/
theorem display_affinity_in_range_witness :
    calc_window_display [⟨"L", 0, 0, 100, 100⟩, ⟨"R", 100, 0, 100, 100⟩]
      150 10 20 20 =
      display_affinity_spec [⟨"L", 0, 0, 100, 100⟩, ⟨"R", 100, 0, 100, 100⟩]
        150 10 20 20 :=
  display_affinity_in_range [⟨"L", 0, 0, 100, 100⟩, ⟨"R", 100, 0, 100, 100⟩]
    150 10 20 20 (by decide) (by decide) (by decide) (by decide) (by decide)
    (by decide) (by decide)

end Wctx
